import Mathlib

/-!
Verification of the Dreamers_AgriTech backend services.

Shallow embedding of `src/backend/services/phase_manager.py` and
`src/backend/services/feedback_processor.py`.

Modelling conventions:
* Dates are modelled at day granularity as integers; the Python expression
  `(datetime.utcnow() - start_date).days` becomes `now - start_date` for an
  explicit `now : Int` parameter.
* A Mongo season document is a record of the optional fields the services
  read; the database is a function from season id to an optional document,
  together with the per-season pending-task list that
  `TaskService.get_pending_tasks` (a data-access helper whose file is not part
  of the analysed sources) returns.
* The Groq LLM call is external I/O: it is modelled as an optional raw
  response string (`none` = the API call raised) and `json.loads` as an
  abstract parse function returning an optional JSON object (`none` = parsing
  raised or payload handling failed).
* Python floats appear in exactly one comparison,
  `days_elapsed < min_days * 0.9`.  For every `growth_days` value in
  `CROP_DURATIONS` (120, 60, 150, 75, 55, 45, 90) the double product
  `growth_days * 0.9` rounds to a value with the same integer cut as the exact
  rational `9 * growth_days / 10`, so the comparison is embedded exactly as
  `days_elapsed * 10 < min_days * 9`.
-/

/-- A JSON value, as produced by `json.loads` on the LLM response and by the
dictionary literals in `feedback_processor.py`. -/
inductive JValue where
  | null
  | jbool (b : Bool)
  | jnum (n : Int)
  | jstr (s : String)
  | jarr (elems : List JValue)
  | jobj (fields : List (String × JValue))

/-- A Python dict with string keys, in insertion order. -/
abbrev Obj := List (String × JValue)

/-- Char-list version of Python `startswith` for substring search. -/
def isPrefixChars : List Char → List Char → Bool
  | [], _ => true
  | _ :: _, [] => false
  | c :: cs, d :: ds => c == d && isPrefixChars cs ds

/-- Char-list substring test. -/
def isSubstrChars (needle : List Char) : List Char → Bool
  | [] => isPrefixChars needle []
  | d :: ds => isPrefixChars needle (d :: ds) || isSubstrChars needle ds

/-- Python `needle in hay` on strings: substring containment. -/
def pyIn (needle hay : String) : Bool := isSubstrChars needle.data hay.data

/-- Python `str.lower()` (ASCII case folding, which covers every string the
services lower-case). -/
def strLower (s : String) : String := ⟨s.data.map Char.toLower⟩

/-! ## Phase manager data model (`phase_manager.py`) -/

/-- The fields of a `crop_seasons` document that `PhaseManager` reads.
Every field is optional, mirroring `"field" in season` / `season.get(...)`
access in the source. -/
structure Season where
  current_phase : Option String
  start_date : Option Int
  crop_type : Option String
  health_score : Option Int
  actual_harvest_date : Option Int
  phase_updated_at : Option Int
deriving DecidableEq

/-- A pending-task document; `can_transition_to_harvest` only reads
`t.get("priority")`. -/
structure PendingTask where
  priority : Option String
deriving DecidableEq

/-- The document database: `crop_seasons` keyed by season id, plus the
pending tasks per season id returned by `TaskService.get_pending_tasks`
(the task-service file is not among the analysed sources; it is modelled as
a plain per-season lookup of the stored pending tasks). -/
structure DB where
  seasons : String → Option Season
  pending_tasks : String → List PendingTask

/-- `PhaseManager.PHASES`. -/
def PHASES : List String := ["pre_sowing", "growth", "harvest", "completed"]

/-- Per-crop duration entry of `CROP_DURATIONS`. -/
structure DurationInfo where
  growth_days : Int
  harvest_window : Int
deriving DecidableEq

/-- `CROP_DURATIONS["default"]`. -/
def default_duration : DurationInfo := ⟨90, 7⟩

/-- `PhaseManager.CROP_DURATIONS`. -/
def CROP_DURATIONS : List (String × DurationInfo) :=
  [("rice", ⟨120, 7⟩), ("wheat", ⟨120, 7⟩), ("moong_dal", ⟨60, 5⟩),
   ("cotton", ⟨150, 14⟩), ("tomato", ⟨75, 10⟩), ("cucumber", ⟨55, 7⟩),
   ("lettuce", ⟨45, 5⟩), ("default", default_duration)]

/-- `self.CROP_DURATIONS.get(crop_type, self.CROP_DURATIONS["default"])`. -/
def cropDuration (crop_type : String) : DurationInfo :=
  (CROP_DURATIONS.lookup crop_type).getD default_duration

/-- `PhaseManager.get_current_phase` (phase_manager.py lines 36-78). -/
def get_current_phase (db : DB) (now : Int) (season_id : String) : String :=
  match db.seasons season_id with
  | none => "pre_sowing"
  | some season =>
    match season.current_phase with
    | some p => p
    | none =>
      match season.start_date with
      | none => "pre_sowing"
      | some start_date =>
        let days_elapsed : Int := now - start_date
        let crop_type := strLower (season.crop_type.getD "default")
        let duration_info := cropDuration crop_type
        if days_elapsed < 0 then "pre_sowing"
        else if days_elapsed < duration_info.growth_days then "growth"
        else if days_elapsed < duration_info.growth_days + duration_info.harvest_window then
          "harvest"
        else "completed"

/-- The `$set` document of `update_phase`. -/
def apply_phase_set (s : Season) (new_phase : String) (now : Int) : Season :=
  { s with current_phase := some new_phase, phase_updated_at := some now }

/-- `PhaseManager.update_phase` (phase_manager.py lines 80-104).  Returns the
database after the `update_one` together with `modified_count > 0`: the write
matches the document with the given id, and Mongo counts it as modified
exactly when the `$set` changed its stored value. -/
def update_phase (db : DB) (now : Int) (season_id new_phase : String) : DB × Bool :=
  if new_phase ∈ PHASES then
    match db.seasons season_id with
    | none => (db, false)
    | some s =>
      let s2 := apply_phase_set s new_phase now
      ({ db with seasons := fun sid => if sid = season_id then some s2 else db.seasons sid },
       decide (s2 ≠ s))
  else (db, false)

/-- `can_transition_to_harvest`, crop-age check (phase_manager.py lines
121-138): resulting readiness flag and appended reasons. -/
def age_check (season : Season) (now : Int) : Bool × List String :=
  match season.start_date with
  | some start_date =>
    let days_elapsed : Int := now - start_date
    let crop_type := strLower (season.crop_type.getD "default")
    let min_days := (cropDuration crop_type).growth_days
    if days_elapsed * 10 < min_days * 9 then
      (false, [s!"Crop too young (needs ~{min_days - days_elapsed} more days)"])
    else
      (true, [s!"Crop age: {days_elapsed} days (✓)"])
  | none => (false, ["Start date not set"])

/-- `can_transition_to_harvest`, health-score check (lines 140-147). -/
def health_check (season : Season) : Bool × List String :=
  match season.health_score with
  | some health =>
    if health < 50 then (false, [s!"Health too low: {health}/100"])
    else (true, [s!"Health: {health}/100 (✓)"])
  | none => (true, [])

/-- `can_transition_to_harvest`, critical-pending-task check (lines 149-159). -/
def tasks_check (db : DB) (season_id : String) : Bool × List String :=
  let critical_tasks := (db.pending_tasks season_id).filter (fun t => t.priority == some "critical")
  let num_critical := critical_tasks.length
  if critical_tasks.isEmpty then
    (true, ["No critical tasks pending (✓)"])
  else
    (false, [s!"{num_critical} critical tasks pending"])

/-- Result dictionary of `can_transition_to_harvest`; the season-not-found
early return carries no `recommendation` key, hence the option. -/
structure Readiness where
  ready : Bool
  reasons : List String
  recommendation : Option String
deriving DecidableEq

/-- `PhaseManager.can_transition_to_harvest` (phase_manager.py lines 106-165).
The source initialises `ready = True` and each failing check sets it to
`False` while appending its reasons in order (age, health, tasks); that is
the conjunction and concatenation below. -/
def can_transition_to_harvest (db : DB) (now : Int) (season_id : String) : Readiness :=
  match db.seasons season_id with
  | none => ⟨false, ["Season not found"], none⟩
  | some season =>
    let a := age_check season now
    let h := health_check season
    let t := tasks_check db season_id
    let ready := a.1 && h.1 && t.1
    ⟨ready, a.2 ++ h.2 ++ t.2,
     some (if ready then "Can transition to harvest" else "Continue growth phase")⟩

/-- `PhaseManager.auto_transition_phases` (phase_manager.py lines 167-197),
returning the database after any write together with the transition result. -/
def auto_transition_phases (db : DB) (now : Int) (season_id : String) : DB × Option String :=
  let current_phase := get_current_phase db now season_id
  if current_phase = "pre_sowing" then
    match db.seasons season_id with
    | some season =>
      if season.start_date.isSome then
        ((update_phase db now season_id "growth").1, some "growth")
      else (db, none)
    | none => (db, none)
  else if current_phase = "growth" then
    if (can_transition_to_harvest db now season_id).ready then
      ((update_phase db now season_id "harvest").1, some "harvest")
    else (db, none)
  else if current_phase = "harvest" then
    match db.seasons season_id with
    | some season =>
      if season.actual_harvest_date.isSome then
        ((update_phase db now season_id "completed").1, some "completed")
      else (db, none)
    | none => (db, none)
  else (db, none)

/-! ## Feedback processor (`feedback_processor.py`) -/

/-- Completion keywords of `_fallback_analysis` (line 143). -/
def completion_keywords : List String :=
  ["done", "completed", "did it", "finished", "applied", "yes"]

/-- Deviation keywords of `_fallback_analysis` (line 147). -/
def deviation_keywords : List String :=
  ["instead", "different", "couldn\x27t", "forgot", "didn\x27t", "other"]

/-- `FeedbackProcessor._fallback_analysis` (feedback_processor.py lines
136-169). -/
def fallback_analysis (planned_action farmer_response : String) : Obj :=
  let response_lower := strLower farmer_response
  let completed := completion_keywords.any (fun k => pyIn k response_lower)
  let has_deviation := deviation_keywords.any (fun k => pyIn k response_lower)
  if completed && !has_deviation then
    [("completed_as_planned", .jbool true),
     ("actual_action", .jstr planned_action),
     ("is_deviation", .jbool false),
     ("deviation_type", .jstr "none"),
     ("severity", .jstr "none"),
     ("impact_summary", .jstr "Task completed as planned"),
     ("requires_agent_response", .jbool false)]
  else
    [("completed_as_planned", .jbool false),
     ("actual_action", .jstr farmer_response),
     ("is_deviation", .jbool true),
     ("deviation_type", .jstr "unknown"),
     ("severity", .jstr "moderate"),
     ("impact_summary", .jstr "Farmer response indicates possible deviation - manual review needed"),
     ("requires_agent_response", .jbool true)]

/-- Markdown code-fence stripping of `analyze_feedback` (lines 113-119). -/
def strip_markdown (s : String) : String :=
  let s1 := if s.startsWith "```json" then s.drop 7 else s
  let s2 := if s1.startsWith "```" then s1.drop 3 else s1
  if s2.endsWith "```" then s2.dropRight 3 else s2

/-- Required-field validation of `analyze_feedback` (line 124). -/
def required_fields : List String :=
  ["completed_as_planned", "actual_action", "is_deviation", "severity"]

/-- Python `field in result` on a dict. -/
def hasKey (r : Obj) (f : String) : Bool := r.any (fun p => p.1 == f)

/-- One iteration of the required-field loop: `if field not in result:
result[field] = None` (dict insertion appends at the end). -/
def set_default (r : Obj) (f : String) : Obj :=
  if hasKey r f then r else r ++ [(f, JValue.null)]

/-- The required-field loop of `analyze_feedback` (lines 124-127). -/
def validate_required (r : Obj) : Obj := required_fields.foldl set_default r

/-- `FeedbackProcessor.analyze_feedback` (feedback_processor.py lines 33-134).
`parse` abstracts `json.loads` composed with Python dict extraction (`none`
covers both a parse exception and any other exception inside the `try`
block after the API call); `llm_response` is the raw LLM message content
(`none` = the Groq API call itself raised).  Any exception falls back to
`fallback_analysis`. -/
def analyze_feedback (parse : String → Option Obj) (llm_response : Option String)
    (planned_action farmer_response : String) : Obj :=
  match llm_response with
  | none => fallback_analysis planned_action farmer_response
  | some raw =>
    let result_text := raw.trim
    let result_text := strip_markdown result_text
    match parse result_text.trim with
    | none => fallback_analysis planned_action farmer_response
    | some result => validate_required result

/-- Result of `calculate_impact_metrics`. -/
structure ImpactMetrics where
  estimated_yield_change_percent : Int
  estimated_timeline_change_days : Int
  confidence : String
deriving DecidableEq

/-- The per-(deviation, severity) entry of `impact_table`: yield change in
percent and timeline change in days. -/
structure ImpactEntry where
  yield_pct : Int
  timeline_days : Int
deriving DecidableEq

/-- `impact_table` of `calculate_impact_metrics` (lines 190-211). -/
def impact_table : List (String × List (String × ImpactEntry)) :=
  [("fertilizer_change",
    [("minor", ⟨-2, 0⟩), ("moderate", ⟨-10, 3⟩), ("major", ⟨-20, 7⟩)]),
   ("delay",
    [("minor", ⟨-1, 1⟩), ("moderate", ⟨-5, 3⟩), ("major", ⟨-15, 7⟩)]),
   ("method_change",
    [("minor", ⟨-3, 0⟩), ("moderate", ⟨-8, 2⟩), ("major", ⟨-12, 5⟩)]),
   ("quantity_change",
    [("minor", ⟨-2, 0⟩), ("moderate", ⟨-7, 1⟩), ("major", ⟨-15, 3⟩)])]

/-- `FeedbackProcessor.calculate_impact_metrics` (feedback_processor.py lines
171-219): `impact_table.get(deviation_type, {}).get(severity, {"yield": 0,
"timeline": 0})`.  The `crop_type` argument is accepted and ignored, as in
the source. -/
def calculate_impact_metrics (deviation_type severity crop_type : String) : ImpactMetrics :=
  let impact := ((impact_table.lookup deviation_type).getD []).lookup severity |>.getD ⟨0, 0⟩
  ⟨impact.yield_pct, impact.timeline_days, "low"⟩

/-! ## Reachable database states (for the phase-value invariant) -/

/-- Every manually stored `current_phase` in the database is a legal phase
name. -/
def PhaseInv (db : DB) : Prop :=
  ∀ sid s p, db.seasons sid = some s → s.current_phase = some p → p ∈ PHASES

/-- One phase-manager write: a `update_phase` call or an
`auto_transition_phases` call. -/
inductive PMStep : DB → DB → Prop where
  | upd (db : DB) (now : Int) (sid p : String) : PMStep db (update_phase db now sid p).1
  | auto (db : DB) (now : Int) (sid : String) : PMStep db (auto_transition_phases db now sid).1

/-- Databases reachable from a starting state through phase-manager
operations. -/
abbrev ReachableDB : DB → DB → Prop := Relation.ReflTransGen PMStep

/-! ## Concrete sample states used by the witnesses -/

/-- A database with no season documents and no tasks. -/
def emptyDB : DB := ⟨fun _ => none, fun _ => []⟩

/-- A rice season that started at day 0, phase never manually set. -/
def riceSeason : Season := ⟨none, some 0, some "rice", none, none, none⟩

/-- A season document with no fields at all. -/
def bareSeason : Season := ⟨none, none, none, none, none, none⟩

/-- A season manually pinned to `harvest`. -/
def pinnedSeason : Season := ⟨some "harvest", some 0, some "rice", none, none, none⟩

/-- A mature healthy rice season in `pre_sowing`-free state: started at day
0, health 80, no manual phase. -/
def matureSeason : Season := ⟨none, some 0, some "rice", some 80, none, none⟩

/-- A season manually in `pre_sowing` that has a start date. -/
def startedSeason : Season := ⟨some "pre_sowing", some 0, some "rice", none, none, none⟩

/-- Database holding exactly `riceSeason` under id `"s1"`. -/
def riceDB : DB := ⟨fun sid => if sid = "s1" then some riceSeason else none, fun _ => []⟩

/-- Database holding exactly `bareSeason` under id `"s1"`. -/
def bareDB : DB := ⟨fun sid => if sid = "s1" then some bareSeason else none, fun _ => []⟩

/-- Database holding exactly `pinnedSeason` under id `"s1"`. -/
def pinnedDB : DB := ⟨fun sid => if sid = "s1" then some pinnedSeason else none, fun _ => []⟩

/-- Database holding exactly `matureSeason` under id `"s1"`. -/
def matureDB : DB := ⟨fun sid => if sid = "s1" then some matureSeason else none, fun _ => []⟩

/-- Database holding exactly `startedSeason` under id `"s1"`. -/
def startedDB : DB := ⟨fun sid => if sid = "s1" then some startedSeason else none, fun _ => []⟩

/-- A JSON object missing `actual_action` and `severity`. -/
def sampleObj : Obj := [("completed_as_planned", .jbool true), ("is_deviation", .jbool false)]

/-! ## Theorems -/

/-- Claim C1: for a season document with a `start_date` and no manually set
`current_phase`, `get_current_phase` derives the phase from the elapsed days
against the `CROP_DURATIONS` entry for the crop type (falling back to the
`default` entry): `pre_sowing` when elapsed days are negative, `growth`
before `growth_days`, `harvest` before `growth_days + harvest_window`, and
`completed` afterwards. -/
theorem get_current_phase_derives_from_elapsed_days
    (db : DB) (now : Int) (sid : String) (s : Season) (sd : Int)
    (h1 : db.seasons sid = some s) (h2 : s.current_phase = none)
    (h3 : s.start_date = some sd) :
    get_current_phase db now sid =
      (if now - sd < 0 then "pre_sowing"
       else if now - sd < (cropDuration (strLower (s.crop_type.getD "default"))).growth_days then
         "growth"
       else if now - sd < (cropDuration (strLower (s.crop_type.getD "default"))).growth_days
           + (cropDuration (strLower (s.crop_type.getD "default"))).harvest_window then
         "harvest"
       else "completed") := by
  simp only [get_current_phase, h1, h2, h3]

/-- Witness for C1: a rice season started at day 0 is in `growth` at day 30. -/
theorem get_current_phase_derives_witness :
    get_current_phase riceDB 30 "s1" = "growth" := by
  rw [get_current_phase_derives_from_elapsed_days riceDB 30 "s1" riceSeason 0 rfl rfl rfl]
  decide

/-- Claim C3: a stored `current_phase` field wins over date-based
derivation: `get_current_phase` returns exactly the stored value, whatever
the start date, crop type or elapsed days are. -/
theorem get_current_phase_manual_override
    (db : DB) (now : Int) (sid : String) (s : Season) (p : String)
    (h1 : db.seasons sid = some s) (h2 : s.current_phase = some p) :
    get_current_phase db now sid = p := by
  simp only [get_current_phase, h1, h2]

/-- Witness for C3: a season pinned to `harvest` reports `harvest` even
thousands of days after its start date. -/
theorem get_current_phase_manual_override_witness :
    get_current_phase pinnedDB 100000 "s1" = "harvest" :=
  get_current_phase_manual_override pinnedDB 100000 "s1" pinnedSeason "harvest" rfl rfl

/-- Claim C9: a season id matching no document, and a document lacking both
`current_phase` and `start_date`, both make `get_current_phase` return
`pre_sowing` instead of an error. -/
theorem get_current_phase_defaults_to_pre_sowing (db : DB) (now : Int) (sid : String) :
    (db.seasons sid = none → get_current_phase db now sid = "pre_sowing") ∧
    (∀ s, db.seasons sid = some s → s.current_phase = none → s.start_date = none →
      get_current_phase db now sid = "pre_sowing") := by
  constructor
  · intro h
    simp only [get_current_phase, h]
  · intro s h1 h2 h3
    simp only [get_current_phase, h1, h2, h3]

/-- Witness for C9: evaluated on an empty database and on a fieldless
document. -/
theorem get_current_phase_defaults_witness :
    get_current_phase emptyDB 5 "nope" = "pre_sowing" ∧
    get_current_phase bareDB 5 "s1" = "pre_sowing" :=
  ⟨(get_current_phase_defaults_to_pre_sowing emptyDB 5 "nope").1 rfl,
   (get_current_phase_defaults_to_pre_sowing bareDB 5 "s1").2 bareSeason rfl rfl rfl⟩

/-- Claim C10: `update_phase` rejects any `new_phase` outside the four
legal phases, returning `False` with no write; and a `True` result requires
a legal phase and an existing document that the `$set` actually modified. -/
theorem update_phase_validates
    (db : DB) (now : Int) (sid p : String) :
    (p ∉ PHASES → update_phase db now sid p = (db, false)) ∧
    ((update_phase db now sid p).2 = true →
      p ∈ PHASES ∧ ∃ s, db.seasons sid = some s ∧ apply_phase_set s p now ≠ s) := by
  constructor
  · intro h
    simp [update_phase, h]
  · intro h
    by_cases hp : p ∈ PHASES
    · refine ⟨hp, ?_⟩
      rcases hs : db.seasons sid with _ | s
      · simp [update_phase, hp, hs] at h
      · refine ⟨s, rfl, ?_⟩
        simp only [update_phase, hp, if_true, hs, decide_eq_true_eq] at h
        exact h
    · simp [update_phase, hp] at h

/-- Witness for C10: the bogus phase `"banana"` is rejected without a
write, and a real write to `"growth"` reports a modification of an
existing document. -/
theorem update_phase_validates_witness :
    update_phase riceDB 0 "s1" "banana" = (riceDB, false) ∧
    ("growth" ∈ PHASES ∧ ∃ s, riceDB.seasons "s1" = some s ∧
      apply_phase_set s "growth" 0 ≠ s) :=
  ⟨(update_phase_validates riceDB 0 "s1" "banana").1 (by decide),
   (update_phase_validates riceDB 0 "s1" "growth").2 (by decide)⟩

/-- Claim C5: `calculate_impact_metrics` is a pure table lookup that
ignores `crop_type`: the four deviation types crossed with the three
severities return exactly the tabulated yield/timeline changes, every
other pair returns zero changes, and the confidence is always `"low"`. -/
theorem calculate_impact_metrics_table :
    (∀ ct, calculate_impact_metrics "fertilizer_change" "minor" ct = ⟨-2, 0, "low"⟩
      ∧ calculate_impact_metrics "fertilizer_change" "moderate" ct = ⟨-10, 3, "low"⟩
      ∧ calculate_impact_metrics "fertilizer_change" "major" ct = ⟨-20, 7, "low"⟩
      ∧ calculate_impact_metrics "delay" "minor" ct = ⟨-1, 1, "low"⟩
      ∧ calculate_impact_metrics "delay" "moderate" ct = ⟨-5, 3, "low"⟩
      ∧ calculate_impact_metrics "delay" "major" ct = ⟨-15, 7, "low"⟩
      ∧ calculate_impact_metrics "method_change" "minor" ct = ⟨-3, 0, "low"⟩
      ∧ calculate_impact_metrics "method_change" "moderate" ct = ⟨-8, 2, "low"⟩
      ∧ calculate_impact_metrics "method_change" "major" ct = ⟨-12, 5, "low"⟩
      ∧ calculate_impact_metrics "quantity_change" "minor" ct = ⟨-2, 0, "low"⟩
      ∧ calculate_impact_metrics "quantity_change" "moderate" ct = ⟨-7, 1, "low"⟩
      ∧ calculate_impact_metrics "quantity_change" "major" ct = ⟨-15, 3, "low"⟩) ∧
    (∀ d s ct,
      (d ∉ ["fertilizer_change", "delay", "method_change", "quantity_change"]
        ∨ s ∉ ["minor", "moderate", "major"]) →
      calculate_impact_metrics d s ct = ⟨0, 0, "low"⟩) ∧
    (∀ d s ct, (calculate_impact_metrics d s ct).confidence = "low") := by
  refine ⟨fun ct => ⟨rfl, rfl, rfl, rfl, rfl, rfl, rfl, rfl, rfl, rfl, rfl, rfl⟩, ?_, fun d s ct => rfl⟩
  intro d s ct h
  rcases h with hd | hs
  · simp only [List.mem_cons, List.not_mem_nil, or_false, not_or] at hd
    obtain ⟨hd1, hd2, hd3, hd4⟩ := hd
    simp [calculate_impact_metrics, impact_table, List.lookup,
      beq_eq_false_iff_ne.mpr hd1, beq_eq_false_iff_ne.mpr hd2,
      beq_eq_false_iff_ne.mpr hd3, beq_eq_false_iff_ne.mpr hd4]
  · simp only [List.mem_cons, List.not_mem_nil, or_false, not_or] at hs
    obtain ⟨hs1, hs2, hs3⟩ := hs
    have es1 := beq_eq_false_iff_ne.mpr hs1
    have es2 := beq_eq_false_iff_ne.mpr hs2
    have es3 := beq_eq_false_iff_ne.mpr hs3
    by_cases hd1 : d = "fertilizer_change"
    · subst hd1
      simp [calculate_impact_metrics, impact_table, List.lookup, es1, es2, es3]
    by_cases hd2 : d = "delay"
    · subst hd2
      simp [calculate_impact_metrics, impact_table, List.lookup, es1, es2, es3]
    by_cases hd3 : d = "method_change"
    · subst hd3
      simp [calculate_impact_metrics, impact_table, List.lookup, es1, es2, es3]
    by_cases hd4 : d = "quantity_change"
    · subst hd4
      simp [calculate_impact_metrics, impact_table, List.lookup, es1, es2, es3]
    simp [calculate_impact_metrics, impact_table, List.lookup,
      beq_eq_false_iff_ne.mpr hd1, beq_eq_false_iff_ne.mpr hd2,
      beq_eq_false_iff_ne.mpr hd3, beq_eq_false_iff_ne.mpr hd4]

/-- Witness for C5: an untabulated deviation type yields the zero impact. -/
theorem calculate_impact_metrics_table_witness :
    calculate_impact_metrics "irrigation_change" "minor" "rice" = ⟨0, 0, "low"⟩ :=
  calculate_impact_metrics_table.2.1 "irrigation_change" "minor" "rice" (Or.inl (by decide))

/-- The crop-age check passes exactly when a start date exists and the
elapsed days reach 90% of the growth days of the crop (exact rational form of
the source comparison `days_elapsed < min_days * 0.9`). -/
theorem age_check_fst (season : Season) (now : Int) :
    (age_check season now).1 = true ↔
      ∃ sd, season.start_date = some sd ∧
        (cropDuration (strLower (season.crop_type.getD "default"))).growth_days * 9
          ≤ (now - sd) * 10 := by
  rcases h : season.start_date with _ | sd
  · simp [age_check, h]
  · rcases lt_or_le ((now - sd) * 10)
      ((cropDuration (strLower (season.crop_type.getD "default"))).growth_days * 9) with hlt | hge
    · simp [age_check, h, if_pos hlt]
      omega
    · simp [age_check, h, if_neg (not_lt.mpr hge)]
      omega

/-- The health check passes exactly when the health score is absent or at
least 50. -/
theorem health_check_fst (season : Season) :
    (health_check season).1 = true ↔ ∀ hs, season.health_score = some hs → 50 ≤ hs := by
  rcases h : season.health_score with _ | hs
  · simp [health_check, h]
  · rcases lt_or_le hs 50 with hlt | hge
    · simp [health_check, h, if_pos hlt]
      omega
    · simp [health_check, h, if_neg (not_lt.mpr hge)]
      omega

/-- The critical-task check passes exactly when no pending task of the
season has priority `critical`. -/
theorem tasks_check_fst (db : DB) (sid : String) :
    (tasks_check db sid).1 = true ↔
      ∀ t ∈ db.pending_tasks sid, t.priority ≠ some "critical" := by
  simp [tasks_check]
  split <;> simp_all

/-- The crop-age check always contributes a reason. -/
theorem age_check_snd_ne (season : Season) (now : Int) : (age_check season now).2 ≠ [] := by
  rcases h : season.start_date with _ | sd
  · simp [age_check, h]
  · simp only [age_check, h]
    split <;> simp

/-- Claim C6: `can_transition_to_harvest` reports `ready` exactly when the
season exists, has a start date, its elapsed days reach 90% of the
growth days, the health score is absent or at least 50, and no pending
task has priority `critical`; and whenever it is not ready the reason list
is nonempty. -/
theorem can_transition_to_harvest_characterisation (db : DB) (now : Int) (sid : String) :
    ((can_transition_to_harvest db now sid).ready = true ↔
      ∃ season, db.seasons sid = some season ∧
        (∃ sd, season.start_date = some sd ∧
          (cropDuration (strLower (season.crop_type.getD "default"))).growth_days * 9
            ≤ (now - sd) * 10) ∧
        (∀ hs, season.health_score = some hs → 50 ≤ hs) ∧
        (∀ t ∈ db.pending_tasks sid, t.priority ≠ some "critical")) ∧
    ((can_transition_to_harvest db now sid).ready = false →
      (can_transition_to_harvest db now sid).reasons ≠ []) := by
  rcases h : db.seasons sid with _ | season
  · constructor
    · simp [can_transition_to_harvest, h]
    · intro _
      simp [can_transition_to_harvest, h]
  · constructor
    · simp only [can_transition_to_harvest, h, Bool.and_eq_true, Option.some.injEq]
      constructor
      · rintro ⟨⟨ha, hh⟩, ht⟩
        exact ⟨season, rfl, (age_check_fst season now).mp ha,
          (health_check_fst season).mp hh, (tasks_check_fst db sid).mp ht⟩
      · rintro ⟨season2, rfl, ha, hh, ht⟩
        exact ⟨⟨(age_check_fst season now).mpr ha, (health_check_fst season).mpr hh⟩,
          (tasks_check_fst db sid).mpr ht⟩
    · intro _
      simp only [can_transition_to_harvest, h]
      intro hc
      rcases List.append_eq_nil.mp hc with ⟨hc2, _⟩
      rcases List.append_eq_nil.mp hc2 with ⟨hc3, _⟩
      exact age_check_snd_ne season now hc3

/-- Witness for C6: a healthy 120-day-old rice season is ready, and the
not-found case reports a reason. -/
theorem can_transition_to_harvest_witness :
    (∃ season, matureDB.seasons "s1" = some season ∧
      (∃ sd, season.start_date = some sd ∧
        (cropDuration (strLower (season.crop_type.getD "default"))).growth_days * 9
          ≤ ((120 : Int) - sd) * 10) ∧
      (∀ hs, season.health_score = some hs → 50 ≤ hs) ∧
      (∀ t ∈ matureDB.pending_tasks "s1", t.priority ≠ some "critical")) ∧
    (can_transition_to_harvest emptyDB 0 "nope").reasons ≠ [] :=
  ⟨(can_transition_to_harvest_characterisation matureDB 120 "s1").1.mp rfl,
   (can_transition_to_harvest_characterisation emptyDB 0 "nope").2 rfl⟩

/-- Claim C7: `auto_transition_phases` advances the phase by at most one
step of `pre_sowing → growth → harvest → completed`: a `none` result
leaves the database unchanged, and a `some p` result is exactly one of the
three guarded single-step transitions, realised by the corresponding
`update_phase` write. -/
theorem auto_transition_phases_one_step (db : DB) (now : Int) (sid : String) :
    ((auto_transition_phases db now sid).2 = none →
      (auto_transition_phases db now sid).1 = db) ∧
    (∀ p, (auto_transition_phases db now sid).2 = some p →
      (auto_transition_phases db now sid).1 = (update_phase db now sid p).1 ∧
      ((get_current_phase db now sid = "pre_sowing" ∧ p = "growth" ∧
          ∃ s, db.seasons sid = some s ∧ s.start_date.isSome = true) ∨
       (get_current_phase db now sid = "growth" ∧ p = "harvest" ∧
          (can_transition_to_harvest db now sid).ready = true) ∨
       (get_current_phase db now sid = "harvest" ∧ p = "completed" ∧
          ∃ s, db.seasons sid = some s ∧ s.actual_harvest_date.isSome = true))) := by
  by_cases h1 : get_current_phase db now sid = "pre_sowing"
  · rcases hs : db.seasons sid with _ | s
    · constructor
      · intro _
        simp [auto_transition_phases, h1, hs]
      · intro p hp
        simp [auto_transition_phases, h1, hs] at hp
    · by_cases hsd : s.start_date.isSome
      · constructor
        · intro hnone
          simp [auto_transition_phases, h1, hs, hsd] at hnone
        · intro p hp
          have hp2 : p = "growth" := by
            simp [auto_transition_phases, h1, hs, hsd] at hp
            exact hp.symm
          subst hp2
          constructor
          · simp [auto_transition_phases, h1, hs, hsd]
          · exact Or.inl ⟨h1, rfl, s, rfl, hsd⟩
      · constructor
        · intro _
          simp [auto_transition_phases, h1, hs, hsd]
        · intro p hp
          simp [auto_transition_phases, h1, hs, hsd] at hp
  · by_cases h2 : get_current_phase db now sid = "growth"
    · by_cases hr : (can_transition_to_harvest db now sid).ready = true
      · constructor
        · intro hnone
          simp [auto_transition_phases, h1, h2, hr] at hnone
        · intro p hp
          have hp2 : p = "harvest" := by
            simp [auto_transition_phases, h1, h2, hr] at hp
            exact hp.symm
          subst hp2
          constructor
          · simp [auto_transition_phases, h1, h2, hr]
          · exact Or.inr (Or.inl ⟨h2, rfl, hr⟩)
      · constructor
        · intro _
          simp [auto_transition_phases, h1, h2, hr]
        · intro p hp
          simp [auto_transition_phases, h1, h2, hr] at hp
    · by_cases h3 : get_current_phase db now sid = "harvest"
      · rcases hs : db.seasons sid with _ | s
        · constructor
          · intro _
            simp [auto_transition_phases, h1, h2, h3, hs]
          · intro p hp
            simp [auto_transition_phases, h1, h2, h3, hs] at hp
        · by_cases hah : s.actual_harvest_date.isSome
          · constructor
            · intro hnone
              simp [auto_transition_phases, h1, h2, h3, hs, hah] at hnone
            · intro p hp
              have hp2 : p = "completed" := by
                simp [auto_transition_phases, h1, h2, h3, hs, hah] at hp
                exact hp.symm
              subst hp2
              constructor
              · simp [auto_transition_phases, h1, h2, h3, hs, hah]
              · exact Or.inr (Or.inr ⟨h3, rfl, s, rfl, hah⟩)
          · constructor
            · intro _
              simp [auto_transition_phases, h1, h2, h3, hs, hah]
            · intro p hp
              simp [auto_transition_phases, h1, h2, h3, hs, hah] at hp
      · constructor
        · intro _
          simp [auto_transition_phases, h1, h2, h3]
        · intro p hp
          simp [auto_transition_phases, h1, h2, h3] at hp

/-- Witness for C7: a `pre_sowing` season with a start date transitions to
`growth` via the `update_phase` write. -/
theorem auto_transition_phases_one_step_witness :
    (auto_transition_phases startedDB 0 "s1").1 = (update_phase startedDB 0 "s1" "growth").1 :=
  ((auto_transition_phases_one_step startedDB 0 "s1").2 "growth" rfl).1

/-- `update_phase` preserves the legal-phase invariant: it only ever stores
a value it has checked against `PHASES`. -/
theorem update_phase_preserves_inv (db : DB) (now : Int) (sid p : String)
    (h : PhaseInv db) : PhaseInv (update_phase db now sid p).1 := by
  by_cases hp : p ∈ PHASES
  · rcases hs : db.seasons sid with _ | s
    · simpa [update_phase, hp, hs] using h
    · intro sid2 s2 p2 h1 h2
      simp only [update_phase, hp, if_true, hs] at h1
      by_cases he : sid2 = sid
      · rw [if_pos he] at h1
        injection h1 with h1e
        rw [← h1e] at h2
        simp only [apply_phase_set] at h2
        injection h2 with h2e
        rw [← h2e]
        exact hp
      · rw [if_neg he] at h1
        exact h sid2 s2 p2 h1 h2
  · simpa [update_phase, hp] using h

/-- `auto_transition_phases` preserves the legal-phase invariant: every
write it issues goes through `update_phase` with a literal legal phase. -/
theorem auto_transition_preserves_inv (db : DB) (now : Int) (sid : String)
    (h : PhaseInv db) : PhaseInv (auto_transition_phases db now sid).1 := by
  by_cases h1 : get_current_phase db now sid = "pre_sowing"
  · rcases hs : db.seasons sid with _ | s
    · simpa [auto_transition_phases, h1, hs] using h
    · by_cases hsd : s.start_date.isSome
      · have h3 := update_phase_preserves_inv db now sid "growth" h
        simpa [auto_transition_phases, h1, hs, hsd] using h3
      · simpa [auto_transition_phases, h1, hs, hsd] using h
  · by_cases h2 : get_current_phase db now sid = "growth"
    · by_cases hr : (can_transition_to_harvest db now sid).ready = true
      · have h3 := update_phase_preserves_inv db now sid "harvest" h
        simpa [auto_transition_phases, h1, h2, hr] using h3
      · simpa [auto_transition_phases, h1, h2, hr] using h
    · by_cases h3 : get_current_phase db now sid = "harvest"
      · rcases hs : db.seasons sid with _ | s
        · simpa [auto_transition_phases, h1, h2, h3, hs] using h
        · by_cases hah : s.actual_harvest_date.isSome
          · have h4 := update_phase_preserves_inv db now sid "completed" h
            simpa [auto_transition_phases, h1, h2, h3, hs, hah] using h4
          · simpa [auto_transition_phases, h1, h2, h3, hs, hah] using h
      · simpa [auto_transition_phases, h1, h2, h3] using h

/-- A single phase-manager step preserves the legal-phase invariant. -/
theorem pmstep_preserves_inv {db db2 : DB} (h : PMStep db db2) (hinv : PhaseInv db) :
    PhaseInv db2 := by
  cases h with
  | upd now sid p => exact update_phase_preserves_inv _ now sid p hinv
  | auto now sid => exact auto_transition_preserves_inv _ now sid hinv

/-- The legal-phase invariant holds in every reachable database state. -/
theorem reachable_preserves_inv {db0 db : DB} (h0 : PhaseInv db0) (h : ReachableDB db0 db) :
    PhaseInv db := by
  induction h with
  | refl => exact h0
  | tail _ hstep ih => exact pmstep_preserves_inv hstep ih

/-- Under the legal-phase invariant, `get_current_phase` only returns one of
the four phases. -/
theorem get_current_phase_mem_of_inv (db : DB) (now : Int) (sid : String)
    (h : PhaseInv db) : get_current_phase db now sid ∈ PHASES := by
  rcases hs : db.seasons sid with _ | s
  · simp [get_current_phase, hs, PHASES]
  · rcases hc : s.current_phase with _ | p
    · rcases hd : s.start_date with _ | sd
      · simp [get_current_phase, hs, hc, hd, PHASES]
      · simp only [get_current_phase, hs, hc, hd]
        split
        · decide
        · split
          · decide
          · split
            · decide
            · decide
    · have hmem := h sid s p hs hc
      simpa [get_current_phase, hs, hc] using hmem

/-- Claim C2: starting from any database satisfying the legal-phase
invariant (in particular one whose documents were only ever written through
`update_phase` / `auto_transition_phases`), every reachable state makes
`get_current_phase` return one of `pre_sowing`, `growth`, `harvest`,
`completed`, for every season id. -/
theorem get_current_phase_always_legal (db0 db : DB) (now : Int) (sid : String)
    (h0 : PhaseInv db0) (h : ReachableDB db0 db) :
    get_current_phase db now sid ∈ PHASES :=
  get_current_phase_mem_of_inv db now sid (reachable_preserves_inv h0 h)

/-- Witness for C2: after one `update_phase` write on a fresh rice season,
the reported phase is legal. -/
theorem get_current_phase_always_legal_witness :
    PhaseInv riceDB ∧
    get_current_phase (update_phase riceDB 0 "s1" "growth").1 0 "s1" ∈ PHASES := by
  have hinv : PhaseInv riceDB := by
    intro sid s p h1 h2
    by_cases he : sid = "s1"
    · subst he
      simp [riceDB] at h1
      rw [← h1] at h2
      simp [riceSeason] at h2
    · simp [riceDB, he] at h1
  exact ⟨hinv, get_current_phase_always_legal riceDB _ 0 "s1" hinv
    (Relation.ReflTransGen.single (PMStep.upd riceDB 0 "s1" "growth"))⟩

/-- Claim C4: whenever the LLM call or its JSON parsing raises,
`analyze_feedback` returns the keyword-based fallback, whose shape is: a
completed-as-planned answer (deviation `false`, severity `none`, actual
action echoing the plan) exactly when the lowercased response contains a
completion keyword and no deviation keyword, and otherwise a moderate
unknown deviation requiring an agent response. -/
theorem analyze_feedback_fallback (parse : String → Option Obj) (llm_response : Option String)
    (planned_action farmer_response : String)
    (herr : llm_response = none ∨
      ∃ raw, llm_response = some raw ∧ parse (strip_markdown raw.trim).trim = none) :
    analyze_feedback parse llm_response planned_action farmer_response =
      fallback_analysis planned_action farmer_response ∧
    ((completion_keywords.any (fun k => pyIn k (strLower farmer_response)) = true ∧
      deviation_keywords.any (fun k => pyIn k (strLower farmer_response)) = false) →
      (fallback_analysis planned_action farmer_response).lookup "is_deviation"
          = some (JValue.jbool false) ∧
      (fallback_analysis planned_action farmer_response).lookup "severity"
          = some (JValue.jstr "none") ∧
      (fallback_analysis planned_action farmer_response).lookup "actual_action"
          = some (JValue.jstr planned_action)) ∧
    (¬(completion_keywords.any (fun k => pyIn k (strLower farmer_response)) = true ∧
       deviation_keywords.any (fun k => pyIn k (strLower farmer_response)) = false) →
      (fallback_analysis planned_action farmer_response).lookup "is_deviation"
          = some (JValue.jbool true) ∧
      (fallback_analysis planned_action farmer_response).lookup "severity"
          = some (JValue.jstr "moderate") ∧
      (fallback_analysis planned_action farmer_response).lookup "deviation_type"
          = some (JValue.jstr "unknown") ∧
      (fallback_analysis planned_action farmer_response).lookup "requires_agent_response"
          = some (JValue.jbool true)) := by
  refine ⟨?_, ?_, ?_⟩
  · rcases herr with hnone | ⟨raw, hraw, hparse⟩
    · rw [hnone]
      rfl
    · rw [hraw]
      simp only [analyze_feedback, hparse]
  · rintro ⟨hc, hd⟩
    simp only [fallback_analysis]
    rw [hc, hd]
    exact ⟨rfl, rfl, rfl⟩
  · intro hn
    simp only [fallback_analysis]
    cases hb : completion_keywords.any (fun k => pyIn k (strLower farmer_response)) with
    | false => exact ⟨rfl, rfl, rfl, rfl⟩
    | true =>
      cases hdd : deviation_keywords.any (fun k => pyIn k (strLower farmer_response)) with
      | false => exact absurd ⟨hb, hdd⟩ hn
      | true => exact ⟨rfl, rfl, rfl, rfl⟩

/-- Witness for C4: a failing parse on the response `"done"` yields the
completed-as-planned fallback, and on `"I used compost instead"` the
moderate unknown deviation. -/
theorem analyze_feedback_fallback_witness :
    analyze_feedback (fun _ => none) (some "not json") "Apply 50kg urea" "done" =
      fallback_analysis "Apply 50kg urea" "done" ∧
    (fallback_analysis "Apply 50kg urea" "done").lookup "severity"
        = some (JValue.jstr "none") ∧
    (fallback_analysis "p2" "I used compost instead").lookup "severity"
        = some (JValue.jstr "moderate") := by
  have h1 := analyze_feedback_fallback (fun _ => none) (some "not json")
    "Apply 50kg urea" "done" (Or.inr ⟨"not json", rfl, rfl⟩)
  have h2 := analyze_feedback_fallback (fun _ => none) (some "x")
    "p2" "I used compost instead" (Or.inr ⟨"x", rfl, rfl⟩)
  exact ⟨h1.1, (h1.2.1 ⟨by decide, by decide⟩).2.1, (h2.2.2 (by decide)).2.1⟩

/-- A key whose `hasKey` test fails has no entry in the dict. -/
theorem lookup_none_of_hasKey_false (r : Obj) (f : String) (h : hasKey r f = false) :
    List.lookup f r = none := by
  induction r with
  | nil => rfl
  | cons a tl ih =>
    rcases a with ⟨k, v⟩
    simp only [hasKey, List.any_cons, Bool.or_eq_false_iff] at h
    have hk : (f == k) = false := by
      refine beq_eq_false_iff_ne.mpr ?_
      intro he
      rw [he] at h
      simp at h
    simp only [List.lookup, hk]
    exact ih h.2

/-- A key whose `hasKey` test succeeds has an entry in the dict. -/
theorem lookup_isSome_of_hasKey_true (r : Obj) (f : String) (h : hasKey r f = true) :
    (List.lookup f r).isSome = true := by
  induction r with
  | nil => simp [hasKey] at h
  | cons a tl ih =>
    rcases a with ⟨k, v⟩
    cases hk : (f == k) with
    | true => simp [List.lookup, hk]
    | false =>
      simp only [List.lookup, hk]
      refine ih ?_
      simp only [hasKey, List.any_cons, Bool.or_eq_true] at h
      rcases h with h1 | h2
      · exfalso
        rw [beq_iff_eq] at h1
        rw [beq_eq_false_iff_ne] at hk
        exact hk h1.symm
      · exact h2

/-- Association lookup distributes over append. -/
theorem lookup_append (f : String) (r s : Obj) :
    List.lookup f (r ++ s) =
      (match List.lookup f r with
       | some v => some v
       | none => List.lookup f s) := by
  induction r with
  | nil => rfl
  | cons a tl ih =>
    rcases a with ⟨k, v⟩
    cases hk : (f == k) with
    | true => simp [List.lookup, hk]
    | false => simpa [List.lookup, hk] using ih

/-- After `set_default r f`, key `f` is present. -/
theorem set_default_self_isSome (r : Obj) (f : String) :
    (List.lookup f (set_default r f)).isSome = true := by
  cases hh : hasKey r f with
  | true =>
    simp only [set_default, hh, if_true]
    exact lookup_isSome_of_hasKey_true r f hh
  | false =>
    simp only [set_default, hh, Bool.false_eq_true, if_false]
    rw [lookup_append, lookup_none_of_hasKey_false r f hh]
    simp [List.lookup]

/-- `set_default r f` fills an absent key `f` with `None`. -/
theorem set_default_self_of_none (r : Obj) (f : String) (h : List.lookup f r = none) :
    List.lookup f (set_default r f) = some JValue.null := by
  have hf : hasKey r f = false := by
    cases hh : hasKey r f with
    | false => rfl
    | true =>
      have hsome := lookup_isSome_of_hasKey_true r f hh
      rw [h] at hsome
      simp at hsome
  simp only [set_default, hf, Bool.false_eq_true, if_false]
  rw [lookup_append, h]
  simp [List.lookup]

/-- `set_default r f` does not change the entry of any other key. -/
theorem set_default_other (r : Obj) (f g : String) (h : g ≠ f) :
    List.lookup g (set_default r f) = List.lookup g r := by
  cases hh : hasKey r f with
  | true => simp [set_default, hh]
  | false =>
    simp only [set_default, hh, Bool.false_eq_true, if_false]
    rw [lookup_append]
    have hnil : List.lookup g [(f, JValue.null)] = none := by
      simp [List.lookup, beq_eq_false_iff_ne.mpr h]
    cases hg : List.lookup g r with
    | some v => simp
    | none => simpa using hnil

/-- Claim C8: on every LLM response string whose stripped form parses as a
JSON object, `analyze_feedback` returns that object passed through the
required-field validation, which guarantees all four required keys are
present and fills any omitted one with `None`. -/
theorem analyze_feedback_required_fields (parse : String → Option Obj) (raw : String)
    (planned_action farmer_response : String) (obj : Obj)
    (h : parse (strip_markdown raw.trim).trim = some obj) :
    analyze_feedback parse (some raw) planned_action farmer_response = validate_required obj ∧
    ∀ f ∈ required_fields,
      ((validate_required obj).lookup f).isSome = true ∧
      (obj.lookup f = none → (validate_required obj).lookup f = some JValue.null) := by
  constructor
  · simp only [analyze_feedback, h]
  · have hval : validate_required obj =
        set_default (set_default (set_default (set_default obj "completed_as_planned")
          "actual_action") "is_deviation") "severity" := rfl
    intro f hf
    simp only [required_fields, List.mem_cons, List.not_mem_nil, or_false] at hf
    rcases hf with rfl | rfl | rfl | rfl
    · rw [hval]
      refine ⟨?_, fun hn => ?_⟩
      · rw [set_default_other _ _ _ (by decide), set_default_other _ _ _ (by decide),
          set_default_other _ _ _ (by decide)]
        exact set_default_self_isSome obj "completed_as_planned"
      · rw [set_default_other _ _ _ (by decide), set_default_other _ _ _ (by decide),
          set_default_other _ _ _ (by decide)]
        exact set_default_self_of_none obj "completed_as_planned" hn
    · rw [hval]
      refine ⟨?_, fun hn => ?_⟩
      · rw [set_default_other _ _ _ (by decide), set_default_other _ _ _ (by decide)]
        exact set_default_self_isSome _ "actual_action"
      · rw [set_default_other _ _ _ (by decide), set_default_other _ _ _ (by decide)]
        refine set_default_self_of_none _ _ ?_
        rw [set_default_other _ _ _ (by decide)]
        exact hn
    · rw [hval]
      refine ⟨?_, fun hn => ?_⟩
      · rw [set_default_other _ _ _ (by decide)]
        exact set_default_self_isSome _ "is_deviation"
      · rw [set_default_other _ _ _ (by decide)]
        refine set_default_self_of_none _ _ ?_
        rw [set_default_other _ _ _ (by decide), set_default_other _ _ _ (by decide)]
        exact hn
    · rw [hval]
      refine ⟨?_, fun hn => ?_⟩
      · exact set_default_self_isSome _ "severity"
      · refine set_default_self_of_none _ _ ?_
        rw [set_default_other _ _ _ (by decide), set_default_other _ _ _ (by decide),
          set_default_other _ _ _ (by decide)]
        exact hn

/-- Witness for C8: an object missing `actual_action` and `severity` comes
back with both filled as `None`. -/
theorem analyze_feedback_required_fields_witness :
    analyze_feedback (fun _ => some sampleObj) (some "resp") "plan" "answer" =
      validate_required sampleObj ∧
    ((validate_required sampleObj).lookup "severity").isSome = true ∧
    (validate_required sampleObj).lookup "actual_action" = some JValue.null := by
  have h := analyze_feedback_required_fields (fun _ => some sampleObj) "resp" "plan" "answer"
    sampleObj rfl
  exact ⟨h.1, (h.2 "severity" (by decide)).1, (h.2 "actual_action" (by decide)).2 rfl⟩
